import Mathlib

/-!
Shallow embedding of the video-player controller
(src/python/src/video_player.py and src/python/src/video_playlist.py).

Modelling conventions:
* Python str values are Lean String; Python `s.lower()` is `lowerStr`
  (per-character lowering), Python string comparison (used by `sorted`)
  is `charListLe` on the underlying character lists (code-point
  lexicographic order, as in CPython).
* Python dicts (`self._play_lists`, `self._flags`) and OrderedDict
  (`Playlist.list`) are association lists in insertion order; assignment
  `d[k] = v` is `dictSet` (replace in place if the key exists, append
  otherwise, exactly the CPython behaviour), `del d[k]` is `dictErase`,
  lookup is `dictGet`.
* Python `sorted` is the stable insertion sort `sortLe` with a Bool
  comparison; stability and the produced order agree with CPython.
* Each controller method becomes a function `PlayerState → ... →
  PlayerState × Outcome`: the returned `Outcome` is the single status
  line family the method prints (one constructor per print branch).
  Auxiliary announcement prints that accompany a success (the implicit
  stop message inside play_video, the play announcement after a search
  selection) are presentation detail of the same single outcome.
* `randint(0, len - 1)` in play_random_video is modelled by a Nat
  parameter r reduced mod the candidate count, covering every possible
  draw; `input()` in the search flow is modelled by the String
  parameter `choose`.
-/

/-- The three playback states of video_player.py (class PlayStatus). -/
inductive PlayStatus where
  | STOPPED
  | PLAYING
  | PAUSED
deriving DecidableEq

/-- A video record: identifier, title, tags (video.py is not under src/;
the field list is taken from the spec data model §3). -/
structure Video where
  title : String
  video_id : String
  tags : List String
deriving DecidableEq

/-- Python str.lower(): lower-case every character. -/
def lowerStr (s : String) : String := ⟨s.data.map Char.toLower⟩

/-- CPython string comparison (code-point lexicographic) on char lists:
a ≤ b. -/
def charListLe : List Char → List Char → Bool
  | [], _ => true
  | _ :: _, [] => false
  | a :: as, b :: bs =>
    if a.toNat < b.toNat then true
    else if a.toNat = b.toNat then charListLe as bs
    else false

/-- Python string a ≤ b. -/
def strLe (a b : String) : Bool := charListLe a.data b.data

/-- Stable insertion of an element into a list sorted by le: the new
element goes before the first strictly larger element, after equals. -/
def insertLe {α : Type} (le : α → α → Bool) (a : α) : List α → List α
  | [] => [a]
  | b :: bs => if le a b then a :: b :: bs else b :: insertLe le a bs

/-- Stable sort (models Python sorted, which is stable). -/
def sortLe {α : Type} (le : α → α → Bool) : List α → List α
  | [] => []
  | a :: as => insertLe le a (sortLe le as)

/-- Association-list lookup (Python `d[k]` / `k in d`). -/
def dictGet {α : Type} (m : List (String × α)) (k : String) : Option α :=
  match m.find? (fun p => p.1 == k) with
  | some p => some p.2
  | none => none

/-- Python dict assignment `d[k] = v`: replace in place if the key is
present, append at the end otherwise. -/
def dictSet {α : Type} (m : List (String × α)) (k : String) (v : α) :
    List (String × α) :=
  match m with
  | [] => [(k, v)]
  | p :: ps => if p.1 == k then (k, v) :: ps else p :: dictSet ps k v

/-- Python `del d[k]`. -/
def dictErase {α : Type} (m : List (String × α)) (k : String) :
    List (String × α) :=
  match m with
  | [] => []
  | p :: ps => if p.1 == k then ps else p :: dictErase ps k

/-- A playlist (video_playlist.py): display name plus the OrderedDict
from video id to Video, kept as an association list in insertion
order. -/
structure Playlist where
  name : String
  list : List (String × Video)
deriving DecidableEq

/-- Modelled from the spec: video_library.py is not under src/; §4.1
gives the catalog contract getAll() (enumerate) and getById(id)
(lookup by identifier, absent when unknown).  The catalog is an
immutable list and get_video finds the record with the requested
identifier. -/
def get_video (library : List Video) (video_id : String) : Option Video :=
  library.find? (fun v => v.video_id == video_id)

/-- The mutable fields of VideoPlayer.__init__ plus the immutable
catalog it owns a reference to. -/
structure PlayerState where
  video_library : List Video
  playing_video : Option Video
  status : PlayStatus
  play_lists : List (String × Playlist)
  flags : List (String × String)
deriving DecidableEq

/-- VideoPlayer.__init__: stopped, no current video, empty registries. -/
def initState (library : List Video) : PlayerState :=
  { video_library := library
    playing_video := none
    status := PlayStatus.STOPPED
    play_lists := []
    flags := [] }

/-- One constructor per print branch of the controller methods; the
payloads are the data interpolated into the printed line. -/
inductive Outcome where
  | numVideos (n : Nat)
  | allVideos (vs : List Video)
  | cannotPlayVideoNotFound
  | cannotPlayFlagged (reason : String)
  | playingVideo (title : String)
  | stoppingVideo (title : String)
  | cannotStopNoVideo
  | noVideosAvailable
  | cannotPauseNoVideo
  | videoAlreadyPaused (title : String)
  | pausingVideo (title : String)
  | cannotContinueNoVideo
  | cannotContinueNotPaused
  | continuingVideo (title : String)
  | noVideoPlaying
  | currentlyPlaying (v : Option Video) (st : PlayStatus)
  | cannotCreateExists
  | createdPlaylist (name : String)
  | cannotAddPlaylistNotFound (name : String)
  | cannotAddVideoNotFound (name : String)
  | cannotAddAlready (name : String)
  | cannotAddFlagged (name reason : String)
  | addedToPlaylist (name title : String)
  | noPlaylists
  | showingAllPlaylists (names : List String)
  | cannotShowPlaylistNotFound (name : String)
  | showingPlaylist (name : String) (videos : List Video)
  | cannotRemovePlaylistNotFound (name : String)
  | cannotRemoveVideoNotFound (name : String)
  | cannotRemoveNotInPlaylist (name : String)
  | removedFromPlaylist (name title : String)
  | cannotClearPlaylistNotFound (name : String)
  | clearedPlaylist (name : String)
  | cannotDeletePlaylistNotFound (name : String)
  | deletedPlaylist (name : String)
  | noSearchResults (term : String)
  | searchResults (term : String) (results : List Video)
  | cannotFlagNotFound
  | cannotFlagAlready
  | flaggedVideo (title reason : String)
  | cannotAllowNotFound
  | cannotAllowNotFlagged
  | allowedVideo (title : String)
deriving DecidableEq

/-- The failure kinds of the spec taxonomy §7 (NotFound, Already*,
Flagged, StateConflict, Empty).  The already-paused notice is a no-op
success per §4.2, and a shown empty playlist is a success with a
distinct annotation. -/
def Outcome.isFailure : Outcome → Bool
  | cannotPlayVideoNotFound => true
  | cannotPlayFlagged _ => true
  | cannotStopNoVideo => true
  | noVideosAvailable => true
  | cannotPauseNoVideo => true
  | cannotContinueNoVideo => true
  | cannotContinueNotPaused => true
  | noVideoPlaying => true
  | cannotCreateExists => true
  | cannotAddPlaylistNotFound _ => true
  | cannotAddVideoNotFound _ => true
  | cannotAddAlready _ => true
  | cannotAddFlagged _ _ => true
  | noPlaylists => true
  | cannotShowPlaylistNotFound _ => true
  | cannotRemovePlaylistNotFound _ => true
  | cannotRemoveVideoNotFound _ => true
  | cannotRemoveNotInPlaylist _ => true
  | cannotClearPlaylistNotFound _ => true
  | cannotDeletePlaylistNotFound _ => true
  | noSearchResults _ => true
  | cannotFlagNotFound => true
  | cannotFlagAlready => true
  | cannotAllowNotFound => true
  | cannotAllowNotFlagged => true
  | _ => false

/-- The NotFound family (video or playlist absent), per the spec error
taxonomy §7. -/
def Outcome.isNotFound : Outcome → Bool
  | cannotPlayVideoNotFound => true
  | cannotAddPlaylistNotFound _ => true
  | cannotAddVideoNotFound _ => true
  | cannotShowPlaylistNotFound _ => true
  | cannotRemovePlaylistNotFound _ => true
  | cannotRemoveVideoNotFound _ => true
  | cannotClearPlaylistNotFound _ => true
  | cannotDeletePlaylistNotFound _ => true
  | cannotFlagNotFound => true
  | cannotAllowNotFound => true
  | _ => false

/-- Title of the current video; Python dereferences
self._playing_video.title, which presumes a video is present (true in
every reachable non-STOPPED state, see the C6 invariant). -/
def currentTitle (s : PlayerState) : String :=
  match s.playing_video with
  | some v => v.title
  | none => ""

/-- VideoPlayer.number_of_videos. -/
def number_of_videos (s : PlayerState) : PlayerState × Outcome :=
  (s, Outcome.numVideos s.video_library.length)

/-- Comparison used by every sorted-by-title iteration:
key=lambda x: x.title.lower(). -/
def titleLe (a b : Video) : Bool := strLe (lowerStr a.title) (lowerStr b.title)

/-- VideoPlayer.show_all_videos: list the catalog sorted by lowercased
title (the flag annotation on each line is rendering of the same
list). -/
def show_all_videos (s : PlayerState) : PlayerState × Outcome :=
  (s, Outcome.allVideos (sortLe titleLe s.video_library))

/-- VideoPlayer.stop_video. -/
def stop_video (s : PlayerState) : PlayerState × Outcome :=
  if s.status = PlayStatus.PLAYING ∨ s.status = PlayStatus.PAUSED then
    ({ s with status := PlayStatus.STOPPED, playing_video := none },
      Outcome.stoppingVideo (currentTitle s))
  else
    (s, Outcome.cannotStopNoVideo)

/-- VideoPlayer.play_video: NotFound, then Flagged, then implicit stop
of a PLAYING or PAUSED video, then play. -/
def play_video (s : PlayerState) (video_id : String) : PlayerState × Outcome :=
  match get_video s.video_library video_id with
  | none => (s, Outcome.cannotPlayVideoNotFound)
  | some video =>
    match dictGet s.flags video_id with
    | some reason => (s, Outcome.cannotPlayFlagged reason)
    | none =>
      ({ (if s.status = PlayStatus.PLAYING ∨ s.status = PlayStatus.PAUSED then (stop_video s).1 else s) with
          playing_video := some video, status := PlayStatus.PLAYING },
        Outcome.playingVideo video.title)

/-- VideoPlayer.play_random_video: the unflagged catalog videos are the
candidates; randint(0, len - 1) is modelled by r % len. -/
def play_random_video (s : PlayerState) (r : Nat) : PlayerState × Outcome :=
  if h : 0 < (s.video_library.filter (fun v => (dictGet s.flags v.video_id).isNone)).length then
    play_video s
      ((s.video_library.filter (fun v => (dictGet s.flags v.video_id).isNone)).get
        ⟨r % (s.video_library.filter (fun v => (dictGet s.flags v.video_id).isNone)).length,
          Nat.mod_lt r h⟩).video_id
  else
    (s, Outcome.noVideosAvailable)

/-- VideoPlayer.pause_video. -/
def pause_video (s : PlayerState) : PlayerState × Outcome :=
  if s.status = PlayStatus.STOPPED then
    (s, Outcome.cannotPauseNoVideo)
  else if s.status = PlayStatus.PAUSED then
    (s, Outcome.videoAlreadyPaused (currentTitle s))
  else
    ({ s with status := PlayStatus.PAUSED },
      Outcome.pausingVideo (currentTitle s))

/-- VideoPlayer.continue_video. -/
def continue_video (s : PlayerState) : PlayerState × Outcome :=
  if s.status = PlayStatus.STOPPED then
    (s, Outcome.cannotContinueNoVideo)
  else if s.status = PlayStatus.PLAYING then
    (s, Outcome.cannotContinueNotPaused)
  else
    ({ s with status := PlayStatus.PLAYING },
      Outcome.continuingVideo (currentTitle s))

/-- VideoPlayer.show_playing. -/
def show_playing (s : PlayerState) : PlayerState × Outcome :=
  if s.status = PlayStatus.STOPPED then
    (s, Outcome.noVideoPlaying)
  else
    (s, Outcome.currentlyPlaying s.playing_video s.status)

/-- VideoPlayer.create_playlist: keyed by the lowercased name, the
original casing stored for display. -/
def create_playlist (s : PlayerState) (playlist_name : String) :
    PlayerState × Outcome :=
  if (dictGet s.play_lists (lowerStr playlist_name)).isSome then
    (s, Outcome.cannotCreateExists)
  else
    ({ s with play_lists := dictSet s.play_lists (lowerStr playlist_name) ⟨playlist_name, []⟩ },
      Outcome.createdPlaylist playlist_name)

/-- VideoPlayer.add_to_playlist: PlaylistNotFound, VideoNotFound,
AlreadyInPlaylist, Flagged, else append into the OrderedDict. -/
def add_to_playlist (s : PlayerState) (playlist_name video_id : String) :
    PlayerState × Outcome :=
  match dictGet s.play_lists (lowerStr playlist_name) with
  | none => (s, Outcome.cannotAddPlaylistNotFound playlist_name)
  | some pl =>
    match get_video s.video_library video_id with
    | none => (s, Outcome.cannotAddVideoNotFound playlist_name)
    | some v =>
      if (dictGet pl.list video_id).isSome then
        (s, Outcome.cannotAddAlready playlist_name)
      else
        match dictGet s.flags video_id with
        | some reason => (s, Outcome.cannotAddFlagged playlist_name reason)
        | none =>
          ({ s with play_lists := dictSet s.play_lists (lowerStr playlist_name) { pl with list := dictSet pl.list video_id v } },
            Outcome.addedToPlaylist playlist_name v.title)

/-- VideoPlayer.show_all_playlists: sorted(i.name for i in values()),
a plain string sort of the display names. -/
def show_all_playlists (s : PlayerState) : PlayerState × Outcome :=
  if s.play_lists.length = 0 then
    (s, Outcome.noPlaylists)
  else
    (s, Outcome.showingAllPlaylists
      (sortLe strLe (s.play_lists.map (fun p => p.2.name))))

/-- VideoPlayer.show_playlist. -/
def show_playlist (s : PlayerState) (playlist_name : String) :
    PlayerState × Outcome :=
  match dictGet s.play_lists (lowerStr playlist_name) with
  | none => (s, Outcome.cannotShowPlaylistNotFound playlist_name)
  | some pl =>
    (s, Outcome.showingPlaylist playlist_name (pl.list.map (fun p => p.2)))

/-- VideoPlayer.remove_from_playlist: PlaylistNotFound, VideoNotFound,
NotInPlaylist, else delete the entry. -/
def remove_from_playlist (s : PlayerState) (playlist_name video_id : String) :
    PlayerState × Outcome :=
  match dictGet s.play_lists (lowerStr playlist_name) with
  | none => (s, Outcome.cannotRemovePlaylistNotFound playlist_name)
  | some pl =>
    match get_video s.video_library video_id with
    | none => (s, Outcome.cannotRemoveVideoNotFound playlist_name)
    | some _ =>
      match dictGet pl.list video_id with
      | none => (s, Outcome.cannotRemoveNotInPlaylist playlist_name)
      | some stored =>
        ({ s with play_lists := dictSet s.play_lists (lowerStr playlist_name) { pl with list := dictErase pl.list video_id } },
          Outcome.removedFromPlaylist playlist_name stored.title)

/-- VideoPlayer.clear_playlist. -/
def clear_playlist (s : PlayerState) (playlist_name : String) :
    PlayerState × Outcome :=
  match dictGet s.play_lists (lowerStr playlist_name) with
  | none => (s, Outcome.cannotClearPlaylistNotFound playlist_name)
  | some pl =>
    ({ s with play_lists := dictSet s.play_lists (lowerStr playlist_name) { pl with list := [] } },
      Outcome.clearedPlaylist playlist_name)

/-- VideoPlayer.delete_playlist. -/
def delete_playlist (s : PlayerState) (playlist_name : String) :
    PlayerState × Outcome :=
  match dictGet s.play_lists (lowerStr playlist_name) with
  | none => (s, Outcome.cannotDeletePlaylistNotFound playlist_name)
  | some _ =>
    ({ s with play_lists := dictErase s.play_lists (lowerStr playlist_name) },
      Outcome.deletedPlaylist playlist_name)

/-- The two search modes of VideoPlayer._search_video. -/
inductive SearchMode where
  | all
  | tag
deriving DecidableEq

/-- Modelled from the spec: video.py (the str(video) representation) is
not under src/; §4.5 describes the mode=all match target as a composed
title+id+tags textual representation. -/
def videoStr (v : Video) : String :=
  v.title ++ " (" ++ v.video_id ++ ") [" ++ String.intercalate " " v.tags ++ "]"

/-- Python substring containment (the in operator) on char lists. -/
def charListInfix (needle : List Char) : List Char → Bool
  | [] => needle.isEmpty
  | c :: cs => needle.isPrefixOf (c :: cs) || charListInfix needle cs

/-- Python str.isdigit() for the post-search selection (nonempty, all
digit characters). -/
def pyIsDigit (cs : String) : Bool := !cs.data.isEmpty && cs.data.all Char.isDigit

/-- Python int() on a digit string. -/
def pyInt (cs : String) : Nat :=
  cs.data.foldl (fun n c => n * 10 + (c.toNat - 48)) 0

/-- The result list built by VideoPlayer._search_video: iterate the
catalog sorted by lowercased title and keep the videos matching the
mode condition and not flagged. -/
def search_results (s : PlayerState) (search_term : String)
    (search_mode : SearchMode) : List Video :=
  (sortLe titleLe s.video_library).filter
    (fun v =>
      (match search_mode with
       | SearchMode.all =>
         charListInfix (lowerStr search_term).data (lowerStr (videoStr v)).data
       | SearchMode.tag =>
         (v.tags.map lowerStr).contains (lowerStr search_term))
      && (dictGet s.flags v.video_id).isNone)

/-- The numbered display of results: enumerate(results, start=1). -/
def search_display (results : List Video) : List (Nat × Video) :=
  results.enumFrom 1

/-- VideoPlayer._search_video: report NoResults on an empty list, else
show the numbered list and, when the read line is a digit string whose
value is a valid 1-based index, play that result. -/
def search_video (s : PlayerState) (search_term : String)
    (search_mode : SearchMode) (choose : String) : PlayerState × Outcome :=
  if (search_results s search_term search_mode).length = 0 then
    (s, Outcome.noSearchResults search_term)
  else
    if h : pyIsDigit choose ∧ 0 < pyInt choose ∧
        pyInt choose ≤ (search_results s search_term search_mode).length then
      ((play_video s
          ((search_results s search_term search_mode).get
            ⟨pyInt choose - 1, by omega⟩).video_id).1,
        Outcome.searchResults search_term (search_results s search_term search_mode))
    else
      (s, Outcome.searchResults search_term (search_results s search_term search_mode))

/-- VideoPlayer.search_videos. -/
def search_videos (s : PlayerState) (search_term choose : String) :
    PlayerState × Outcome :=
  search_video s search_term SearchMode.all choose

/-- VideoPlayer.search_videos_tag. -/
def search_videos_tag (s : PlayerState) (video_tag choose : String) :
    PlayerState × Outcome :=
  search_video s video_tag SearchMode.tag choose

/-- VideoPlayer.flag_video (the Python default reason is the string
"Not supplied", supplied by the caller here): VideoNotFound, then
AlreadyFlagged, else record the reason and implicitly stop when the
flagged video is the current one. -/
def flag_video (s : PlayerState) (video_id flag_reason : String) :
    PlayerState × Outcome :=
  match get_video s.video_library video_id with
  | none => (s, Outcome.cannotFlagNotFound)
  | some video =>
    if (dictGet s.flags video_id).isSome then
      (s, Outcome.cannotFlagAlready)
    else
      (match s.playing_video with
       | some pv =>
         if pv.video_id == video_id then
           (stop_video { s with flags := dictSet s.flags video_id flag_reason }).1
         else
           { s with flags := dictSet s.flags video_id flag_reason }
       | none => { s with flags := dictSet s.flags video_id flag_reason },
        Outcome.flaggedVideo video.title flag_reason)

/-- VideoPlayer.allow_video: VideoNotFound, then NotFlagged, else drop
the flag entry. -/
def allow_video (s : PlayerState) (video_id : String) :
    PlayerState × Outcome :=
  match get_video s.video_library video_id with
  | none => (s, Outcome.cannotAllowNotFound)
  | some video =>
    match dictGet s.flags video_id with
    | none => (s, Outcome.cannotAllowNotFlagged)
    | some _ =>
      ({ s with flags := dictErase s.flags video_id },
        Outcome.allowedVideo video.title)

/-- One public controller command per VideoPlayer method, with the data
the environment supplies (ids, names, the random draw, the selection
input line). -/
inductive Op where
  | numberOfVideos
  | showAllVideos
  | playVideo (video_id : String)
  | stopVideo
  | playRandomVideo (r : Nat)
  | pauseVideo
  | continueVideo
  | showPlaying
  | createPlaylist (playlist_name : String)
  | addToPlaylist (playlist_name video_id : String)
  | showAllPlaylists
  | showPlaylist (playlist_name : String)
  | removeFromPlaylist (playlist_name video_id : String)
  | clearPlaylist (playlist_name : String)
  | deletePlaylist (playlist_name : String)
  | searchVideos (search_term choose : String)
  | searchVideosTag (video_tag choose : String)
  | flagVideo (video_id flag_reason : String)
  | allowVideo (video_id : String)

/-- Dispatch a command to the controller method it names. -/
def step (op : Op) (s : PlayerState) : PlayerState × Outcome :=
  match op with
  | Op.numberOfVideos => number_of_videos s
  | Op.showAllVideos => show_all_videos s
  | Op.playVideo video_id => play_video s video_id
  | Op.stopVideo => stop_video s
  | Op.playRandomVideo r => play_random_video s r
  | Op.pauseVideo => pause_video s
  | Op.continueVideo => continue_video s
  | Op.showPlaying => show_playing s
  | Op.createPlaylist n => create_playlist s n
  | Op.addToPlaylist n i => add_to_playlist s n i
  | Op.showAllPlaylists => show_all_playlists s
  | Op.showPlaylist n => show_playlist s n
  | Op.removeFromPlaylist n i => remove_from_playlist s n i
  | Op.clearPlaylist n => clear_playlist s n
  | Op.deletePlaylist n => delete_playlist s n
  | Op.searchVideos t c => search_videos s t c
  | Op.searchVideosTag t c => search_videos_tag s t c
  | Op.flagVideo i r => flag_video s i r
  | Op.allowVideo i => allow_video s i

/-- States reachable from a fresh VideoPlayer on a given catalog by any
sequence of commands. -/
inductive Reachable (library : List Video) : PlayerState → Prop where
  | init : Reachable library (initState library)
  | next (op : Op) {s : PlayerState} :
      Reachable library s → Reachable library (step op s).1

/-- The playback-state invariant of the spec data model: the
current-video reference is non-null exactly when the status is not
STOPPED. -/
def PlayerInv (s : PlayerState) : Prop :=
  s.playing_video.isSome = true ↔ s.status ≠ PlayStatus.STOPPED

/-! ### Order lemmas for the Python string comparison -/

theorem charListLe_total : ∀ a b : List Char,
    charListLe a b = true ∨ charListLe b a = true
  | [], _ => Or.inl rfl
  | _ :: _, [] => Or.inr rfl
  | a :: as, b :: bs => by
    simp only [charListLe]
    rcases Nat.lt_trichotomy a.toNat b.toNat with h | h | h
    · left
      simp [h]
    · have h1 : ¬ a.toNat < b.toNat := by omega
      have h2 : ¬ b.toNat < a.toNat := by omega
      rcases charListLe_total as bs with ih | ih
      · left
        simp [h1, h, ih]
      · right
        simp [h2, h.symm, ih]
    · right
      simp [h]

theorem charListLe_trans : ∀ a b c : List Char,
    charListLe a b = true → charListLe b c = true → charListLe a c = true
  | [], _, _, _, _ => rfl
  | _ :: _, [], _, h1, _ => by simp [charListLe] at h1
  | _ :: _, _ :: _, [], _, h2 => by simp [charListLe] at h2
  | a :: as, b :: bs, c :: cs, h1, h2 => by
    simp only [charListLe] at h1 h2 ⊢
    rcases Nat.lt_trichotomy a.toNat b.toNat with hab | hab | hab
    · rcases Nat.lt_trichotomy b.toNat c.toNat with hbc | hbc | hbc
      · simp [show a.toNat < c.toNat by omega]
      · simp [show a.toNat < c.toNat by omega]
      · simp [show ¬ b.toNat < c.toNat by omega,
          show ¬ b.toNat = c.toNat by omega] at h2
    · rcases Nat.lt_trichotomy b.toNat c.toNat with hbc | hbc | hbc
      · simp [show a.toNat < c.toNat by omega]
      · have hac : a.toNat = c.toNat := by omega
        rw [if_neg (show ¬ a.toNat < b.toNat by omega), if_pos hab] at h1
        rw [if_neg (show ¬ b.toNat < c.toNat by omega), if_pos hbc] at h2
        rw [if_neg (show ¬ a.toNat < c.toNat by omega), if_pos hac]
        exact charListLe_trans as bs cs h1 h2
      · simp [show ¬ b.toNat < c.toNat by omega,
          show ¬ b.toNat = c.toNat by omega] at h2
    · simp [show ¬ a.toNat < b.toNat by omega,
        show ¬ a.toNat = b.toNat by omega] at h1

theorem strLe_total (a b : String) : strLe a b = true ∨ strLe b a = true :=
  charListLe_total a.data b.data

theorem strLe_trans {a b c : String} (h1 : strLe a b = true)
    (h2 : strLe b c = true) : strLe a c = true :=
  charListLe_trans a.data b.data c.data h1 h2

/-! ### The stable sort: permutation and sortedness -/

theorem insertLe_perm {α : Type} (le : α → α → Bool) (a : α) :
    ∀ l : List α, (insertLe le a l).Perm (a :: l)
  | [] => List.Perm.refl _
  | b :: bs => by
    simp only [insertLe]
    by_cases h : le a b = true
    · simp [h]
    · simp only [h, if_false]
      exact (((insertLe_perm le a bs).cons b).trans (List.Perm.swap a b bs))

theorem sortLe_perm {α : Type} (le : α → α → Bool) :
    ∀ l : List α, (sortLe le l).Perm l
  | [] => List.Perm.refl _
  | a :: as =>
    (insertLe_perm le a (sortLe le as)).trans ((sortLe_perm le as).cons a)

theorem mem_sortLe {α : Type} {le : α → α → Bool} {x : α} {l : List α} :
    x ∈ sortLe le l ↔ x ∈ l :=
  (sortLe_perm le l).mem_iff

theorem pairwise_insertLe {α : Type} {le : α → α → Bool}
    (htot : ∀ x y, le x y = true ∨ le y x = true)
    (htrans : ∀ x y z, le x y = true → le y z = true → le x z = true)
    (a : α) : ∀ {l : List α},
      List.Pairwise (fun x y => le x y = true) l →
      List.Pairwise (fun x y => le x y = true) (insertLe le a l)
  | [], _ => by simp [insertLe]
  | b :: bs, h => by
    rcases List.pairwise_cons.mp h with ⟨hb, hbs⟩
    simp only [insertLe]
    by_cases hab : le a b = true
    · simp only [hab, if_true]
      refine List.pairwise_cons.mpr ⟨?_, h⟩
      intro x hx
      rcases List.mem_cons.mp hx with rfl | hx
      · exact hab
      · exact htrans a b x hab (hb x hx)
    · simp only [hab, if_false]
      have hba : le b a = true := by
        rcases htot a b with h1 | h1
        · exact absurd h1 hab
        · exact h1
      refine List.pairwise_cons.mpr ⟨?_, pairwise_insertLe htot htrans a hbs⟩
      intro x hx
      have hx2 := (insertLe_perm le a bs).mem_iff.mp hx
      rcases List.mem_cons.mp hx2 with rfl | h1
      · exact hba
      · exact hb x h1

theorem pairwise_sortLe {α : Type} {le : α → α → Bool}
    (htot : ∀ x y, le x y = true ∨ le y x = true)
    (htrans : ∀ x y z, le x y = true → le y z = true → le x z = true) :
    ∀ l : List α, List.Pairwise (fun x y => le x y = true) (sortLe le l)
  | [] => List.Pairwise.nil
  | a :: as => pairwise_insertLe htot htrans a (pairwise_sortLe htot htrans as)

/-! ### Dictionary lemmas -/

theorem dictGet_cons_none {α : Type} {p : String × α} {ps : List (String × α)}
    {k : String} (h : dictGet (p :: ps) k = none) :
    (p.1 == k) = false ∧ dictGet ps k = none := by
  simp only [dictGet, List.find?] at h
  cases hpk : p.1 == k with
  | true => rw [hpk] at h; simp at h
  | false =>
    rw [hpk] at h
    exact ⟨rfl, by simpa [dictGet] using h⟩

theorem dictGet_dictSet_self {α : Type} (m : List (String × α)) (k : String)
    (v : α) : dictGet (dictSet m k v) k = some v := by
  induction m with
  | nil => simp [dictSet, dictGet, List.find?]
  | cons p ps ih =>
    simp only [dictSet]
    cases hpk : p.1 == k with
    | true => simp [dictGet, List.find?]
    | false => simpa [dictGet, List.find?, hpk] using ih

theorem dictSet_append {α : Type} {m : List (String × α)} {k : String}
    (v : α) (h : dictGet m k = none) : dictSet m k v = m ++ [(k, v)] := by
  induction m with
  | nil => rfl
  | cons p ps ih =>
    rcases dictGet_cons_none h with ⟨hpk, hps⟩
    simp [dictSet, hpk, ih hps]

theorem dictErase_dictSet_append {α : Type} {m : List (String × α)}
    {k : String} (v : α) (h : dictGet m k = none) :
    dictErase (dictSet m k v) k = m := by
  rw [dictSet_append v h]
  induction m with
  | nil => simp [dictErase]
  | cons p ps ih =>
    rcases dictGet_cons_none h with ⟨hpk, hps⟩
    simp [dictErase, hpk, ih hps]

/-! ### Catalog lookup lemmas -/

theorem get_video_mem {library : List Video} {video_id : String} {v : Video}
    (h : get_video library video_id = some v) :
    v ∈ library ∧ v.video_id = video_id := by
  refine ⟨List.mem_of_find?_eq_some h, ?_⟩
  have := List.find?_some h
  simpa using this

theorem get_video_isSome {library : List Video} {v : Video}
    (h : v ∈ library) : ∃ w, get_video library v.video_id = some w := by
  have : (library.find? (fun x => x.video_id == v.video_id)).isSome = true :=
    List.find?_isSome.mpr ⟨v, h, by simp⟩
  rcases Option.isSome_iff_exists.mp this with ⟨w, hw⟩
  exact ⟨w, hw⟩

theorem play_video_frame (s : PlayerState) (video_id : String) :
    (play_video s video_id).1 = s ∨ (play_video s video_id).2.isFailure = false := by
  unfold play_video
  repeat' split
  all_goals simp [Outcome.isFailure]

theorem stop_video_frame (s : PlayerState) :
    (stop_video s).1 = s ∨ (stop_video s).2.isFailure = false := by
  unfold stop_video
  repeat' split
  all_goals simp [Outcome.isFailure]

theorem play_random_video_frame (s : PlayerState) (r : Nat) :
    (play_random_video s r).1 = s ∨ (play_random_video s r).2.isFailure = false := by
  unfold play_random_video
  split
  · exact play_video_frame s _
  · simp [Outcome.isFailure]

theorem pause_video_frame (s : PlayerState) :
    (pause_video s).1 = s ∨ (pause_video s).2.isFailure = false := by
  unfold pause_video
  repeat' split
  all_goals simp [Outcome.isFailure]

theorem continue_video_frame (s : PlayerState) :
    (continue_video s).1 = s ∨ (continue_video s).2.isFailure = false := by
  unfold continue_video
  repeat' split
  all_goals simp [Outcome.isFailure]

theorem show_playing_frame (s : PlayerState) :
    (show_playing s).1 = s ∨ (show_playing s).2.isFailure = false := by
  unfold show_playing
  repeat' split
  all_goals simp [Outcome.isFailure]

theorem create_playlist_frame (s : PlayerState) (n : String) :
    (create_playlist s n).1 = s ∨ (create_playlist s n).2.isFailure = false := by
  unfold create_playlist
  repeat' split
  all_goals simp [Outcome.isFailure]

theorem add_to_playlist_frame (s : PlayerState) (n i : String) :
    (add_to_playlist s n i).1 = s ∨ (add_to_playlist s n i).2.isFailure = false := by
  unfold add_to_playlist
  repeat' split
  all_goals simp [Outcome.isFailure]

theorem show_all_playlists_frame (s : PlayerState) :
    (show_all_playlists s).1 = s ∨ (show_all_playlists s).2.isFailure = false := by
  unfold show_all_playlists
  repeat' split
  all_goals simp [Outcome.isFailure]

theorem show_playlist_frame (s : PlayerState) (n : String) :
    (show_playlist s n).1 = s ∨ (show_playlist s n).2.isFailure = false := by
  unfold show_playlist
  repeat' split
  all_goals simp [Outcome.isFailure]

theorem remove_from_playlist_frame (s : PlayerState) (n i : String) :
    (remove_from_playlist s n i).1 = s ∨
      (remove_from_playlist s n i).2.isFailure = false := by
  unfold remove_from_playlist
  repeat' split
  all_goals simp [Outcome.isFailure]

theorem clear_playlist_frame (s : PlayerState) (n : String) :
    (clear_playlist s n).1 = s ∨ (clear_playlist s n).2.isFailure = false := by
  unfold clear_playlist
  repeat' split
  all_goals simp [Outcome.isFailure]

theorem delete_playlist_frame (s : PlayerState) (n : String) :
    (delete_playlist s n).1 = s ∨ (delete_playlist s n).2.isFailure = false := by
  unfold delete_playlist
  repeat' split
  all_goals simp [Outcome.isFailure]

theorem search_video_frame (s : PlayerState) (t : String) (m : SearchMode)
    (c : String) :
    (search_video s t m c).1 = s ∨ (search_video s t m c).2.isFailure = false := by
  unfold search_video
  repeat' split
  all_goals simp [Outcome.isFailure]

theorem flag_video_frame (s : PlayerState) (i r : String) :
    (flag_video s i r).1 = s ∨ (flag_video s i r).2.isFailure = false := by
  unfold flag_video
  repeat' split
  all_goals simp [Outcome.isFailure]

theorem allow_video_frame (s : PlayerState) (i : String) :
    (allow_video s i).1 = s ∨ (allow_video s i).2.isFailure = false := by
  unfold allow_video
  repeat' split
  all_goals simp [Outcome.isFailure]

theorem step_frame (op : Op) (s : PlayerState) :
    (step op s).1 = s ∨ (step op s).2.isFailure = false := by
  cases op with
  | numberOfVideos => exact Or.inl rfl
  | showAllVideos => exact Or.inl rfl
  | playVideo i => exact play_video_frame s i
  | stopVideo => exact stop_video_frame s
  | playRandomVideo r => exact play_random_video_frame s r
  | pauseVideo => exact pause_video_frame s
  | continueVideo => exact continue_video_frame s
  | showPlaying => exact show_playing_frame s
  | createPlaylist n => exact create_playlist_frame s n
  | addToPlaylist n i => exact add_to_playlist_frame s n i
  | showAllPlaylists => exact show_all_playlists_frame s
  | showPlaylist n => exact show_playlist_frame s n
  | removeFromPlaylist n i => exact remove_from_playlist_frame s n i
  | clearPlaylist n => exact clear_playlist_frame s n
  | deletePlaylist n => exact delete_playlist_frame s n
  | searchVideos t c => exact search_video_frame s t SearchMode.all c
  | searchVideosTag t c => exact search_video_frame s t SearchMode.tag c
  | flagVideo i r => exact flag_video_frame s i r
  | allowVideo i => exact allow_video_frame s i


theorem stop_video_inv {s : PlayerState} (h : PlayerInv s) :
    PlayerInv (stop_video s).1 := by
  unfold stop_video
  repeat' split
  all_goals simp_all [PlayerInv]

theorem play_video_inv {s : PlayerState} {i : String} (h : PlayerInv s) :
    PlayerInv (play_video s i).1 := by
  unfold play_video
  repeat' split
  all_goals simp_all [PlayerInv]

theorem play_random_video_inv {s : PlayerState} {r : Nat} (h : PlayerInv s) :
    PlayerInv (play_random_video s r).1 := by
  unfold play_random_video
  split
  · exact play_video_inv h
  · exact h

theorem pause_video_inv {s : PlayerState} (h : PlayerInv s) :
    PlayerInv (pause_video s).1 := by
  unfold pause_video
  repeat' split
  all_goals simp_all [PlayerInv]

theorem continue_video_inv {s : PlayerState} (h : PlayerInv s) :
    PlayerInv (continue_video s).1 := by
  unfold continue_video
  repeat' split
  all_goals simp_all [PlayerInv]

theorem create_playlist_inv {s : PlayerState} {n : String} (h : PlayerInv s) :
    PlayerInv (create_playlist s n).1 := by
  unfold create_playlist
  repeat' split
  all_goals simp_all [PlayerInv]

theorem add_to_playlist_inv {s : PlayerState} {n i : String} (h : PlayerInv s) :
    PlayerInv (add_to_playlist s n i).1 := by
  unfold add_to_playlist
  repeat' split
  all_goals simp_all [PlayerInv]

theorem remove_from_playlist_inv {s : PlayerState} {n i : String}
    (h : PlayerInv s) : PlayerInv (remove_from_playlist s n i).1 := by
  unfold remove_from_playlist
  repeat' split
  all_goals simp_all [PlayerInv]

theorem clear_playlist_inv {s : PlayerState} {n : String} (h : PlayerInv s) :
    PlayerInv (clear_playlist s n).1 := by
  unfold clear_playlist
  repeat' split
  all_goals simp_all [PlayerInv]

theorem delete_playlist_inv {s : PlayerState} {n : String} (h : PlayerInv s) :
    PlayerInv (delete_playlist s n).1 := by
  unfold delete_playlist
  repeat' split
  all_goals simp_all [PlayerInv]

theorem search_video_inv {s : PlayerState} {t : String} {m : SearchMode}
    {c : String} (h : PlayerInv s) : PlayerInv (search_video s t m c).1 := by
  unfold search_video
  repeat' split
  · exact h
  · exact play_video_inv h
  · exact h

theorem flag_video_inv {s : PlayerState} {i r : String} (h : PlayerInv s) :
    PlayerInv (flag_video s i r).1 := by
  unfold flag_video
  repeat' split
  · exact h
  · exact h
  · exact stop_video_inv (by simpa [PlayerInv] using h)
  · simpa [PlayerInv] using h
  · simpa [PlayerInv] using h

theorem allow_video_inv {s : PlayerState} {i : String} (h : PlayerInv s) :
    PlayerInv (allow_video s i).1 := by
  unfold allow_video
  repeat' split
  all_goals simp_all [PlayerInv]

theorem step_inv {s : PlayerState} (op : Op) (h : PlayerInv s) :
    PlayerInv (step op s).1 := by
  cases op with
  | numberOfVideos => exact h
  | showAllVideos => exact h
  | playVideo i => exact play_video_inv h
  | stopVideo => exact stop_video_inv h
  | playRandomVideo r => exact play_random_video_inv h
  | pauseVideo => exact pause_video_inv h
  | continueVideo => exact continue_video_inv h
  | showPlaying =>
    show PlayerInv (show_playing s).1
    unfold show_playing
    repeat' split
    all_goals exact h
  | createPlaylist n => exact create_playlist_inv h
  | addToPlaylist n i => exact add_to_playlist_inv h
  | showAllPlaylists =>
    show PlayerInv (show_all_playlists s).1
    unfold show_all_playlists
    repeat' split
    all_goals exact h
  | showPlaylist n =>
    show PlayerInv (show_playlist s n).1
    unfold show_playlist
    repeat' split
    all_goals exact h
  | removeFromPlaylist n i => exact remove_from_playlist_inv h
  | clearPlaylist n => exact clear_playlist_inv h
  | deletePlaylist n => exact delete_playlist_inv h
  | searchVideos t c => exact search_video_inv h
  | searchVideosTag t c => exact search_video_inv h
  | flagVideo i r => exact flag_video_inv h
  | allowVideo i => exact allow_video_inv h

/-- Claim C10: pause and resume only ever change the playback status field:
the current video, the playlist registry, the flag registry and the
catalog are untouched on every branch. -/
theorem claim_C10 (s : PlayerState) :
    (pause_video s).1.playing_video = s.playing_video
    ∧ (pause_video s).1.play_lists = s.play_lists
    ∧ (pause_video s).1.flags = s.flags
    ∧ (pause_video s).1.video_library = s.video_library
    ∧ (continue_video s).1.playing_video = s.playing_video
    ∧ (continue_video s).1.play_lists = s.play_lists
    ∧ (continue_video s).1.flags = s.flags
    ∧ (continue_video s).1.video_library = s.video_library := by
  refine ⟨?_, ?_, ?_, ?_, ?_, ?_, ?_, ?_⟩
  all_goals first
    | (unfold pause_video
       repeat' split
       all_goals rfl)
    | (unfold continue_video
       repeat' split
       all_goals rfl)

theorem claim_C10_witness :
    (pause_video (initState [])).1.flags = (initState []).flags :=
  (claim_C10 (initState [])).2.2.1

/-- Claim C4: every command returns one outcome, and whenever that outcome is
a failure the controller state is returned unchanged (all-or-nothing). -/
theorem claim_C4 (op : Op) (s : PlayerState)
    (h : (step op s).2.isFailure = true) : (step op s).1 = s := by
  rcases step_frame op s with h1 | h1
  · exact h1
  · rw [h1] at h
    cases h

theorem claim_C4_witness :
    (step (Op.playVideo "zz") (initState [])).1 = initState [] :=
  claim_C4 (Op.playVideo "zz") (initState []) (by decide)

/-- Claim C6: in every state reachable from a fresh controller, the current
video reference is present exactly when the playback status is not
STOPPED. -/
theorem claim_C6 {library : List Video} {s : PlayerState}
    (h : Reachable library s) :
    s.playing_video.isSome = true ↔ s.status ≠ PlayStatus.STOPPED := by
  induction h with
  | init => simp [initState]
  | next op h ih => exact step_inv op ih

theorem claim_C6_witness :
    ((initState []).playing_video.isSome = true
      ↔ (initState []).status ≠ PlayStatus.STOPPED) :=
  claim_C6 Reachable.init

/-- Claim C3: for a video id absent from the catalog, each id-accepting
operation (play, add, remove, flag, unflag) reports a NotFound failure
and returns the state unchanged. -/
theorem claim_C3 (s : PlayerState) (video_id : String)
    (h : get_video s.video_library video_id = none) :
    ∀ playlist_name flag_reason : String,
      (play_video s video_id).1 = s
      ∧ (play_video s video_id).2.isNotFound = true
      ∧ (add_to_playlist s playlist_name video_id).1 = s
      ∧ (add_to_playlist s playlist_name video_id).2.isNotFound = true
      ∧ (remove_from_playlist s playlist_name video_id).1 = s
      ∧ (remove_from_playlist s playlist_name video_id).2.isNotFound = true
      ∧ (flag_video s video_id flag_reason).1 = s
      ∧ (flag_video s video_id flag_reason).2.isNotFound = true
      ∧ (allow_video s video_id).1 = s
      ∧ (allow_video s video_id).2.isNotFound = true := by
  intro playlist_name flag_reason
  refine ⟨?_, ?_, ?_, ?_, ?_, ?_, ?_, ?_, ?_, ?_⟩
  · unfold play_video
    rw [h]
  · unfold play_video
    rw [h]
    rfl
  · unfold add_to_playlist
    cases hp : dictGet s.play_lists (lowerStr playlist_name) with
    | none => rfl
    | some pl => rw [h]
  · unfold add_to_playlist
    cases hp : dictGet s.play_lists (lowerStr playlist_name) with
    | none => rfl
    | some pl =>
      rw [h]
      rfl
  · unfold remove_from_playlist
    cases hp : dictGet s.play_lists (lowerStr playlist_name) with
    | none => rfl
    | some pl => rw [h]
  · unfold remove_from_playlist
    cases hp : dictGet s.play_lists (lowerStr playlist_name) with
    | none => rfl
    | some pl =>
      rw [h]
      rfl
  · unfold flag_video
    rw [h]
  · unfold flag_video
    rw [h]
    rfl
  · unfold allow_video
    rw [h]
  · unfold allow_video
    rw [h]
    rfl

theorem claim_C3_witness :
    (play_video (initState []) "zz").1 = initState []
    ∧ (play_video (initState []) "zz").2.isNotFound = true :=
  ⟨(claim_C3 (initState []) "zz" (by decide) "p" "r").1,
    (claim_C3 (initState []) "zz" (by decide) "p" "r").2.1⟩

/-- Claim C1, counterexample: create playlists "a" then "B"; show_all_playlists
returns ["B", "a"], which is not sorted case-insensitively ascending
(lowercased, "b" would come after "a"). -/
theorem claim_C1_counterexample :
    (show_all_playlists
        (create_playlist (create_playlist (initState []) "a").1 "B").1).2
      = Outcome.showingAllPlaylists ["B", "a"]
    ∧ ¬ List.Pairwise (fun x y => strLe (lowerStr x) (lowerStr y) = true)
        ["B", "a"] := by
  refine ⟨by decide, ?_⟩
  intro hp
  have h1 := (List.pairwise_cons.mp hp).1 "a" (by simp)
  exact absurd h1 (by decide)

/-- Claim C1, amended: show_all_playlists never changes state; on an empty
registry it reports the distinct empty notice; on a nonempty registry
it returns exactly the display names, sorted ascending by the plain
case-SENSITIVE (code-point) string order, not case-insensitively. -/
theorem claim_C1 (s : PlayerState) :
    (show_all_playlists s).1 = s
    ∧ (s.play_lists = [] → (show_all_playlists s).2 = Outcome.noPlaylists)
    ∧ (s.play_lists ≠ [] → ∃ names,
        (show_all_playlists s).2 = Outcome.showingAllPlaylists names
        ∧ names.Perm (s.play_lists.map (fun p => p.2.name))
        ∧ List.Pairwise (fun x y => strLe x y = true) names) := by
  refine ⟨?_, ?_, ?_⟩
  · unfold show_all_playlists
    split <;> rfl
  · intro h
    unfold show_all_playlists
    simp [h]
  · intro h
    unfold show_all_playlists
    rw [if_neg (fun hc => h (List.length_eq_zero.mp hc))]
    exact ⟨_, rfl, sortLe_perm strLe _,
      pairwise_sortLe strLe_total (fun x y z h1 h2 => strLe_trans h1 h2) _⟩

theorem claim_C1_witness :
    (show_all_playlists (initState [])).2 = Outcome.noPlaylists :=
  (claim_C1 (initState [])).2.1 rfl

/-- Claim C2: add_to_playlist checks PlaylistNotFound, then VideoNotFound,
then AlreadyInPlaylist, then Flagged (surfacing the stored reason), in
that precedence order, each failure leaving the state unchanged; when
none applies it appends the id at the end of the member list,
preserving the insertion order of the existing members. -/
theorem claim_C2 (s : PlayerState) (playlist_name video_id : String) :
    (dictGet s.play_lists (lowerStr playlist_name) = none →
      add_to_playlist s playlist_name video_id
        = (s, Outcome.cannotAddPlaylistNotFound playlist_name))
    ∧ (∀ pl, dictGet s.play_lists (lowerStr playlist_name) = some pl →
        get_video s.video_library video_id = none →
        add_to_playlist s playlist_name video_id
          = (s, Outcome.cannotAddVideoNotFound playlist_name))
    ∧ (∀ pl v, dictGet s.play_lists (lowerStr playlist_name) = some pl →
        get_video s.video_library video_id = some v →
        (dictGet pl.list video_id).isSome = true →
        add_to_playlist s playlist_name video_id
          = (s, Outcome.cannotAddAlready playlist_name))
    ∧ (∀ pl v reason, dictGet s.play_lists (lowerStr playlist_name) = some pl →
        get_video s.video_library video_id = some v →
        dictGet pl.list video_id = none →
        dictGet s.flags video_id = some reason →
        add_to_playlist s playlist_name video_id
          = (s, Outcome.cannotAddFlagged playlist_name reason))
    ∧ (∀ pl v, dictGet s.play_lists (lowerStr playlist_name) = some pl →
        get_video s.video_library video_id = some v →
        dictGet pl.list video_id = none →
        dictGet s.flags video_id = none →
        add_to_playlist s playlist_name video_id
          = ({ s with play_lists := dictSet s.play_lists (lowerStr playlist_name) { pl with list := pl.list ++ [(video_id, v)] } },
             Outcome.addedToPlaylist playlist_name v.title)) := by
  refine ⟨?_, ?_, ?_, ?_, ?_⟩
  · intro hp
    unfold add_to_playlist
    rw [hp]
  · intro pl hp hv
    unfold add_to_playlist
    rw [hp, hv]
  · intro pl v hp hv hmem
    unfold add_to_playlist
    simp [hp, hv, hmem]
  · intro pl v reason hp hv hmem hflag
    unfold add_to_playlist
    simp [hp, hv, hmem, hflag]
  · intro pl v hp hv hmem hflag
    unfold add_to_playlist
    simp [hp, hv, hmem, hflag, dictSet_append v hmem]

theorem claim_C2_witness :
    add_to_playlist
      ⟨[⟨"Amy", "v1", ["fun"]⟩], none, PlayStatus.STOPPED,
        [("x", ⟨"X", []⟩)], []⟩ "X" "v1"
      = (⟨[⟨"Amy", "v1", ["fun"]⟩], none, PlayStatus.STOPPED,
          [("x", ⟨"X", [("v1", ⟨"Amy", "v1", ["fun"]⟩)]⟩)], []⟩,
         Outcome.addedToPlaylist "X" "Amy") := by
  have h := (claim_C2
    ⟨[⟨"Amy", "v1", ["fun"]⟩], none, PlayStatus.STOPPED,
      [("x", ⟨"X", []⟩)], []⟩ "X" "v1").2.2.2.2
    ⟨"X", []⟩ ⟨"Amy", "v1", ["fun"]⟩ (by decide) (by decide) (by decide)
    (by decide)
  rw [h]
  decide

/-- Claim C5: when flag_video succeeds and the flagged id is the video
currently playing or paused, playback becomes STOPPED with the current
video cleared; when the flagged id is not the current video, the
playback fields are untouched. -/
theorem claim_C5 (s : PlayerState) (video_id flag_reason : String) (v : Video)
    (hv : get_video s.video_library video_id = some v)
    (hnf : dictGet s.flags video_id = none) :
    (∀ pv, s.playing_video = some pv → pv.video_id = video_id →
      s.status ≠ PlayStatus.STOPPED →
      (flag_video s video_id flag_reason).1.status = PlayStatus.STOPPED
      ∧ (flag_video s video_id flag_reason).1.playing_video = none)
    ∧ ((∀ pv, s.playing_video = some pv → pv.video_id ≠ video_id) →
      (flag_video s video_id flag_reason).1.status = s.status
      ∧ (flag_video s video_id flag_reason).1.playing_video = s.playing_video) := by
  constructor
  · intro pv hpv hid hst
    have hc : s.status = PlayStatus.PLAYING ∨ s.status = PlayStatus.PAUSED := by
      cases hS : s.status
      · exact absurd hS hst
      · exact Or.inl rfl
      · exact Or.inr rfl
    unfold flag_video stop_video
    rcases hc with hc | hc <;> simp [hv, hnf, hpv, hid, hc]
  · intro hne
    unfold flag_video
    cases hpv : s.playing_video with
    | none => simp [hv, hnf, hpv]
    | some pv =>
      have hbeq : (pv.video_id == video_id) = false := by
        simp only [beq_eq_false_iff_ne, ne_eq]
        exact hne pv hpv
      simp [hv, hnf, hpv, hbeq]

theorem claim_C5_witness :
    (flag_video
        ⟨[⟨"Amy", "v1", ["fun"]⟩], some ⟨"Amy", "v1", ["fun"]⟩,
          PlayStatus.PLAYING, [], []⟩ "v1" "spam").1.status
      = PlayStatus.STOPPED :=
  ((claim_C5
      ⟨[⟨"Amy", "v1", ["fun"]⟩], some ⟨"Amy", "v1", ["fun"]⟩,
        PlayStatus.PLAYING, [], []⟩ "v1" "spam" ⟨"Amy", "v1", ["fun"]⟩
      (by decide) (by decide)).1
    ⟨"Amy", "v1", ["fun"]⟩ rfl rfl (by decide)).1

/-- Claim C7: play_random_video draws from the unflagged catalog videos only:
whatever the random draw, either the candidate set is empty and it
reports no videos available leaving the state unchanged, or it plays an
unflagged catalog video, so the Flagged failure of play_video is
unreachable from this entry point. -/
theorem claim_C7 (s : PlayerState) (r : Nat) :
    (s.video_library.filter (fun v => (dictGet s.flags v.video_id).isNone) = [] →
      play_random_video s r = (s, Outcome.noVideosAvailable))
    ∧ (s.video_library.filter (fun v => (dictGet s.flags v.video_id).isNone) ≠ [] →
      ∃ w, w ∈ s.video_library
        ∧ dictGet s.flags w.video_id = none
        ∧ play_random_video s r
            = ({ s with playing_video := some w, status := PlayStatus.PLAYING },
               Outcome.playingVideo w.title)
        ∧ ∀ reason, (play_random_video s r).2 ≠ Outcome.cannotPlayFlagged reason) := by
  constructor
  · intro h
    unfold play_random_video
    rw [dif_neg (by simp [h])]
  · intro h
    have hlen : 0 < (s.video_library.filter
        (fun v => (dictGet s.flags v.video_id).isNone)).length :=
      List.length_pos.mpr h
    have hch := List.get_mem
      (s.video_library.filter (fun v => (dictGet s.flags v.video_id).isNone))
      (r % (s.video_library.filter
        (fun v => (dictGet s.flags v.video_id).isNone)).length)
      (Nat.mod_lt r hlen)
    rcases List.mem_filter.mp hch with ⟨hmemlib, hflag⟩
    rcases get_video_isSome hmemlib with ⟨w, hw⟩
    rcases get_video_mem hw with ⟨hwlib, hwid⟩
    have hwflag : dictGet s.flags w.video_id = none := by
      rw [hwid]
      exact Option.isNone_iff_eq_none.mp hflag
    have hEq : play_random_video s r
        = ({ s with playing_video := some w, status := PlayStatus.PLAYING },
           Outcome.playingVideo w.title) := by
      unfold play_random_video
      rw [dif_pos hlen]
      unfold play_video
      simp only [hw, Option.isNone_iff_eq_none.mp hflag]
      split
      · unfold stop_video
        split <;> rfl
      · rfl
    refine ⟨w, hwlib, hwflag, hEq, ?_⟩
    intro reason
    rw [hEq]
    simp

theorem claim_C7_witness :
    ∃ w, w ∈ [(⟨"Amy", "v1", ["fun"]⟩ : Video)]
      ∧ dictGet (initState [⟨"Amy", "v1", ["fun"]⟩]).flags w.video_id = none
      ∧ play_random_video (initState [⟨"Amy", "v1", ["fun"]⟩]) 0
          = ({ initState [⟨"Amy", "v1", ["fun"]⟩] with
                playing_video := some w, status := PlayStatus.PLAYING },
             Outcome.playingVideo w.title)
      ∧ ∀ reason, (play_random_video (initState [⟨"Amy", "v1", ["fun"]⟩]) 0).2
          ≠ Outcome.cannotPlayFlagged reason :=
  (claim_C7 (initState [⟨"Amy", "v1", ["fun"]⟩]) 0).2 (by decide)

/-- Claim C8: tag search includes a video exactly when the term matches one of
its tags case-insensitively and the video is unflagged; the result list
is ordered by lowercased title and its display is numbered from 1. -/
theorem claim_C8 (s : PlayerState) (video_tag : String) (v : Video) :
    (v ∈ search_results s video_tag SearchMode.tag ↔
      v ∈ s.video_library
      ∧ (∃ t ∈ v.tags, lowerStr t = lowerStr video_tag)
      ∧ dictGet s.flags v.video_id = none)
    ∧ List.Pairwise (fun a b => titleLe a b = true)
        (search_results s video_tag SearchMode.tag)
    ∧ (search_display (search_results s video_tag SearchMode.tag)).map Prod.fst
        = List.range' 1 (search_results s video_tag SearchMode.tag).length := by
  refine ⟨?_, ?_, ?_⟩
  · unfold search_results
    rw [List.mem_filter, mem_sortLe]
    simp only [Bool.and_eq_true, Option.isNone_iff_eq_none]
    constructor
    · rintro ⟨h1, h2, h3⟩
      refine ⟨h1, ?_, h3⟩
      rcases List.mem_map.mp (List.elem_iff.mp h2) with ⟨t, ht, hteq⟩
      exact ⟨t, ht, hteq⟩
    · rintro ⟨h1, ⟨t, ht, hteq⟩, h3⟩
      refine ⟨h1, ?_, h3⟩
      exact List.elem_iff.mpr (List.mem_map.mpr ⟨t, ht, hteq⟩)
  · unfold search_results
    exact List.Pairwise.filter _
      (@pairwise_sortLe Video titleLe
        (fun a b => strLe_total (lowerStr a.title) (lowerStr b.title))
        (fun x y z h1 h2 => strLe_trans h1 h2) s.video_library)
  · unfold search_display
    exact List.enumFrom_map_fst 1 _

theorem claim_C8_witness :
    (⟨"Amy", "v1", ["fun"]⟩ : Video)
      ∈ search_results (initState [⟨"Amy", "v1", ["fun"]⟩]) "FUN" SearchMode.tag :=
  ((claim_C8 (initState [⟨"Amy", "v1", ["fun"]⟩]) "FUN"
      ⟨"Amy", "v1", ["fun"]⟩).1).mpr
    ⟨by decide, ⟨"fun", by decide, by decide⟩, by decide⟩

/-- Claim C9: starting with no playlist named "X" (case-insensitively) and an
unflagged catalog video, create("X") then add then remove all succeed
and leave playlist "X" registered with zero members. -/
theorem claim_C9 (s : PlayerState) (v1 : Video)
    (hnp : dictGet s.play_lists (lowerStr "X") = none)
    (hv : get_video s.video_library v1.video_id = some v1)
    (hnf : dictGet s.flags v1.video_id = none) :
    (create_playlist s "X").2 = Outcome.createdPlaylist "X"
    ∧ (add_to_playlist (create_playlist s "X").1 "X" v1.video_id).2
        = Outcome.addedToPlaylist "X" v1.title
    ∧ (remove_from_playlist
          (add_to_playlist (create_playlist s "X").1 "X" v1.video_id).1
          "X" v1.video_id).2
        = Outcome.removedFromPlaylist "X" v1.title
    ∧ dictGet (remove_from_playlist
          (add_to_playlist (create_playlist s "X").1 "X" v1.video_id).1
          "X" v1.video_id).1.play_lists (lowerStr "X")
        = some ⟨"X", []⟩ := by
  have h1 : create_playlist s "X"
      = ({ s with play_lists := dictSet s.play_lists (lowerStr "X") ⟨"X", []⟩ },
         Outcome.createdPlaylist "X") := by
    unfold create_playlist
    rw [if_neg (by simp [hnp])]
  have hg1 : dictGet (dictSet s.play_lists (lowerStr "X") ⟨"X", []⟩)
      (lowerStr "X") = some ⟨"X", []⟩ := dictGet_dictSet_self _ _ _
  have h2 : add_to_playlist (create_playlist s "X").1 "X" v1.video_id
      = ({ s with play_lists := dictSet (dictSet s.play_lists (lowerStr "X") ⟨"X", []⟩) (lowerStr "X") ⟨"X", [(v1.video_id, v1)]⟩ },
         Outcome.addedToPlaylist "X" v1.title) := by
    rw [h1]
    unfold add_to_playlist
    simp only [hg1, hv, hnf,
      show dictGet ([] : List (String × Video)) v1.video_id = none from rfl,
      Option.isSome_none, Bool.false_eq_true, if_false]
    rfl
  have hg2 : dictGet (dictSet (dictSet s.play_lists (lowerStr "X") ⟨"X", []⟩)
        (lowerStr "X") ⟨"X", [(v1.video_id, v1)]⟩) (lowerStr "X")
      = some ⟨"X", [(v1.video_id, v1)]⟩ := dictGet_dictSet_self _ _ _
  have h3 : remove_from_playlist
        (add_to_playlist (create_playlist s "X").1 "X" v1.video_id).1
        "X" v1.video_id
      = ({ s with play_lists := dictSet (dictSet (dictSet s.play_lists (lowerStr "X") ⟨"X", []⟩) (lowerStr "X") ⟨"X", [(v1.video_id, v1)]⟩) (lowerStr "X") ⟨"X", []⟩ },
         Outcome.removedFromPlaylist "X" v1.title) := by
    rw [h2]
    unfold remove_from_playlist
    simp only [hg2, hv,
      show dictGet [(v1.video_id, v1)] v1.video_id = some v1 from by
        simp [dictGet, List.find?],
      show dictErase [(v1.video_id, v1)] v1.video_id = [] from by
        simp [dictErase]]
  refine ⟨?_, ?_, ?_, ?_⟩
  · rw [h1]
  · rw [h2]
  · rw [h3]
  · rw [h3]
    exact dictGet_dictSet_self _ _ _

theorem claim_C9_witness :
    dictGet (remove_from_playlist
        (add_to_playlist
          (create_playlist (initState [⟨"Amy", "v1", ["fun"]⟩]) "X").1
          "X" "v1").1
        "X" "v1").1.play_lists (lowerStr "X")
      = some ⟨"X", []⟩ :=
  (claim_C9 (initState [⟨"Amy", "v1", ["fun"]⟩]) ⟨"Amy", "v1", ["fun"]⟩
    (by decide) (by decide) (by decide)).2.2.2
